import Mathlib

/-!
Verification of the cote-constellation satellite simulator.

Shallow embedding of the core subsystems: the per-satellite sensor buffer
(Sensor.cpp), the spacing strategies (SpacingFactory.hpp,
FrameSpacedStrategy.hpp, CloseOrbitSpacedStrategy.hpp) and the ground-station
link scheduling policies (StickyPolicy, FIFOPolicy, RoundRobinPolicy,
RandomPolicy, ShortestJobFirstPolicy, ShortestRemainingTimePolicy).

Machine integers are modelled as `Nat` with explicit `% 2^64` where the C++
code performs wrapping 64-bit arithmetic.  Satellite positions (C++ doubles
that are only ever copied, never computed with) are modelled as rational
triples; wall-clock times as nanosecond counts.
-/

namespace Cote

/-- `2^64`, the modulus of C++ `uint64_t` arithmetic. -/
def U64 : Nat := 2 ^ 64

/-- Wrapping 64-bit subtraction `a - b` as computed on C++ `uint64_t`
operands (the operands are first reduced mod `2^64`, as any stored
`uint64_t` value is). -/
def u64sub (a b : Nat) : Nat := (a % U64 + (U64 - b % U64)) % U64

/-- An ECI position, the `std::array<double,3>` of Sensor.cpp.  Positions are
only copied by the embedded code, never computed with. -/
abbrev Posn := ℚ × ℚ × ℚ

/-- State of `cote::Sensor` (src/software/sensor/source/Sensor.cpp).
`prevSenseDateTime` and `globalTime` are wall-clock times in nanoseconds. -/
structure Sensor where
  senseTrigger : Bool
  bitsBuffered : Nat
  bitsPerSense : Nat
  maxBufferCapacity : Nat
  totalBitsLost : Nat
  prevSensePosn : Posn
  prevSenseDateTime : Nat
  eciPosn : Posn
  globalTime : Nat
  id : Nat
deriving Repr, DecidableEq

/-- `Sensor::triggerSense` — latches the sense trigger. -/
def Sensor.triggerSense (s : Sensor) : Sensor := { s with senseTrigger := true }

/-- `Sensor::drainBuffer(bits)` — removes up to `bits` from the buffer and
returns the pair (new sensor state, number of bits actually drained). -/
def Sensor.drainBuffer (s : Sensor) (bits : Nat) : Sensor × Nat :=
  if s.bitsBuffered ≥ bits then
    ({ s with bitsBuffered := s.bitsBuffered - bits }, bits)
  else
    ({ s with bitsBuffered := 0 }, s.bitsBuffered)

/-- `Sensor::update` (Sensor.cpp lines 153-180).  Returns the new sensor
state together with the list of measurement events emitted, each a pair of
the stream name and the cumulative lost-bit count it carries (the CSV writes
that count converted to megabytes).  The sum `bitsBuffered + bitsPerSense`
and the loss accumulation are wrapping `uint64_t` additions. -/
def Sensor.update (s : Sensor) : Sensor × List (String × Nat) :=
  if s.senseTrigger then
    let newTotal := (s.bitsBuffered + s.bitsPerSense) % U64
    if s.maxBufferCapacity < newTotal then
      let lost := (s.totalBitsLost + s.bitsPerSense) % U64
      ({ s with bitsBuffered := s.maxBufferCapacity,
                totalBitsLost := lost,
                prevSensePosn := s.eciPosn,
                prevSenseDateTime := s.globalTime,
                senseTrigger := false },
       [("buffer-overflow-sat-" ++ toString s.id, lost)])
    else
      ({ s with bitsBuffered := newTotal,
                prevSensePosn := s.eciPosn,
                prevSenseDateTime := s.globalTime,
                senseTrigger := false }, [])
  else (s, [])

/-- A sensor state on which the literal reading of claim C1 (mathematical
sum, no 64-bit wrap) disagrees with `Sensor::update`: the buffer already
holds `2^64 - 1` bits and a sense of 2 bits arrives. -/
def c1WrapSensor : Sensor :=
  { senseTrigger := true
    bitsBuffered := U64 - 1
    bitsPerSense := 2
    maxBufferCapacity := U64 - 1
    totalBitsLost := 0
    prevSensePosn := (0, 0, 0)
    prevSenseDateTime := 0
    eciPosn := (0, 0, 0)
    globalTime := 0
    id := 0 }

/-- The 8 Mb / 20 Mb / 16 Mb overflow scenario of the spec (sensor id 7),
with one megabit = `2^20` bits. -/
def c1OverflowSensor : Sensor :=
  { senseTrigger := true
    bitsBuffered := 16 * 2 ^ 20
    bitsPerSense := 8 * 2 ^ 20
    maxBufferCapacity := 20 * 2 ^ 20
    totalBitsLost := 0
    prevSensePosn := (0, 0, 0)
    prevSenseDateTime := 0
    eciPosn := (0, 0, 0)
    globalTime := 0
    id := 7 }

/-- The 10 Mb buffer of the spec's drain scenario. -/
def c8DrainSensor : Sensor :=
  { senseTrigger := false
    bitsBuffered := 10 * 2 ^ 20
    bitsPerSense := 8 * 2 ^ 20
    maxBufferCapacity := 20 * 2 ^ 20
    totalBitsLost := 0
    prevSensePosn := (0, 0, 0)
    prevSenseDateTime := 0
    eciPosn := (0, 0, 0)
    globalTime := 0
    id := 7 }

/-- A sensor state exercising the full 64-bit wrap of claim C9: the buffer
holds `2^64 - 1` bits, one more bit arrives, and the capacity is the default
`2^64 - 1`. -/
def c9WrapSensor : Sensor :=
  { senseTrigger := true
    bitsBuffered := U64 - 1
    bitsPerSense := 1
    maxBufferCapacity := U64 - 1
    totalBitsLost := 0
    prevSensePosn := (0, 0, 0)
    prevSenseDateTime := 0
    eciPosn := (0, 0, 0)
    globalTime := 0
    id := 3 }

/-- C1, counterexample: on `c1WrapSensor` the mathematical sum
`bitsBuffered + bitsPerSense = 2^64 + 1` exceeds the capacity, so the claim
as stated demands `bitsBuffered := maxBufferCapacity`, a loss of
`bitsPerSense` bits, and an overflow event; the code instead wraps the sum
to 1, stores 1, loses nothing, and emits nothing. -/
theorem c1_counterexample :
    c1WrapSensor.maxBufferCapacity < c1WrapSensor.bitsBuffered + c1WrapSensor.bitsPerSense ∧
    c1WrapSensor.update.1.bitsBuffered = 1 ∧
    c1WrapSensor.update.1.totalBitsLost = 0 ∧
    c1WrapSensor.update.2 = [] ∧
    (1 : Nat) ≠ c1WrapSensor.maxBufferCapacity := by
  refine ⟨by decide, ?_, ?_, ?_, by decide⟩ <;> decide

/-- C1 (amended): for a triggered sensor whose 64-bit sums do not wrap
(`bitsBuffered + bitsPerSense < 2^64` and `totalBitsLost + bitsPerSense <
2^64`), `Sensor::update` behaves exactly as the claim states: on overflow it
saturates the buffer, adds `bitsPerSense` to the cumulative loss and emits
the `buffer-overflow-sat-<id>` measurement carrying the cumulative loss;
otherwise it stores the sum; in both cases it records the current position
and time and clears the trigger. -/
theorem c1_update_no_wrap (s : Sensor) (ht : s.senseTrigger = true)
    (hb : s.bitsBuffered + s.bitsPerSense < U64)
    (hl : s.totalBitsLost + s.bitsPerSense < U64) :
    (s.maxBufferCapacity < s.bitsBuffered + s.bitsPerSense →
      s.update.1.bitsBuffered = s.maxBufferCapacity ∧
      s.update.1.totalBitsLost = s.totalBitsLost + s.bitsPerSense ∧
      s.update.2 = [("buffer-overflow-sat-" ++ toString s.id,
                     s.totalBitsLost + s.bitsPerSense)]) ∧
    (s.bitsBuffered + s.bitsPerSense ≤ s.maxBufferCapacity →
      s.update.1.bitsBuffered = s.bitsBuffered + s.bitsPerSense ∧
      s.update.1.totalBitsLost = s.totalBitsLost ∧
      s.update.2 = []) ∧
    s.update.1.prevSensePosn = s.eciPosn ∧
    s.update.1.prevSenseDateTime = s.globalTime ∧
    s.update.1.senseTrigger = false := by
  have hbmod : (s.bitsBuffered + s.bitsPerSense) % U64 = s.bitsBuffered + s.bitsPerSense :=
    Nat.mod_eq_of_lt hb
  have hlmod : (s.totalBitsLost + s.bitsPerSense) % U64 = s.totalBitsLost + s.bitsPerSense :=
    Nat.mod_eq_of_lt hl
  unfold Sensor.update
  rw [ht]
  simp only [if_true, hbmod, hlmod]
  split
  · rename_i hlt
    refine ⟨fun _ => ⟨rfl, rfl, rfl⟩, fun hle => absurd hlt (by omega), rfl, rfl, rfl⟩
  · rename_i hge
    refine ⟨fun hlt => absurd hlt hge, fun _ => ⟨rfl, rfl, rfl⟩, rfl, rfl, rfl⟩

/-- C1, witness: the spec's overflow scenario (8 Mb per sense, 20 Mb cap,
16 Mb buffered) through `c1_update_no_wrap`: the buffer saturates at 20 Mb,
8 Mb are recorded lost, and the overflow event for sensor 7 is emitted. -/
theorem c1_update_no_wrap_witness :
    c1OverflowSensor.update.1.bitsBuffered = 20 * 2 ^ 20 ∧
    c1OverflowSensor.update.1.totalBitsLost = 8 * 2 ^ 20 ∧
    c1OverflowSensor.update.2 = [("buffer-overflow-sat-7", 8 * 2 ^ 20)] := by
  have h := c1_update_no_wrap c1OverflowSensor rfl (by decide) (by decide)
  have h1 := h.1 (by decide)
  exact ⟨h1.1, h1.2.1, h1.2.2⟩

/-- C8: `drainBuffer(bits)` returns exactly `min bits bitsBuffered` and
leaves the buffer diminished by the returned amount; in particular a 12 Mb
request against a 10 Mb buffer returns 10 Mb and empties the buffer. -/
theorem c8_drain_buffer (s : Sensor) (bits : Nat) :
    (s.drainBuffer bits).2 = min bits s.bitsBuffered ∧
    (s.drainBuffer bits).1.bitsBuffered = s.bitsBuffered - (s.drainBuffer bits).2 ∧
    (c8DrainSensor.drainBuffer (12 * 2 ^ 20)).2 = 10 * 2 ^ 20 ∧
    (c8DrainSensor.drainBuffer (12 * 2 ^ 20)).1.bitsBuffered = 0 := by
  refine ⟨?_, ?_, by decide, by decide⟩ <;>
  · unfold Sensor.drainBuffer
    split <;> simp <;> omega

/-- C9: when the mathematical sum `bitsBuffered + bitsPerSense` reaches
`2^64`, `Sensor::update` compares the wrapped sum against the capacity;
whenever the wrapped sum is within capacity the overflow branch is skipped,
the buffer is set to the wrapped value and nothing is counted lost — and
under the default capacity `2^64 - 1` the branch is always skipped, the
buffer shrinking to `bitsBuffered + bitsPerSense - 2^64`, a value smaller
than the old `bitsBuffered`. -/
theorem c9_wrapping_update (s : Sensor) (ht : s.senseTrigger = true)
    (hw : U64 ≤ s.bitsBuffered + s.bitsPerSense) :
    ((s.bitsBuffered + s.bitsPerSense) % U64 ≤ s.maxBufferCapacity →
      s.update.1.bitsBuffered = (s.bitsBuffered + s.bitsPerSense) % U64 ∧
      s.update.1.totalBitsLost = s.totalBitsLost ∧
      s.update.2 = []) ∧
    (s.maxBufferCapacity = U64 - 1 → s.bitsBuffered < U64 → s.bitsPerSense < U64 →
      s.update.1.bitsBuffered = s.bitsBuffered + s.bitsPerSense - U64 ∧
      s.update.1.bitsBuffered < s.bitsBuffered ∧
      s.update.1.totalBitsLost = s.totalBitsLost ∧
      s.update.2 = []) := by
  constructor
  · intro hle
    unfold Sensor.update
    rw [ht]
    simp only [if_true]
    split
    · rename_i hlt; exact absurd hle (by omega)
    · exact ⟨rfl, rfl, rfl⟩
  · intro hmax hb hp
    have hmod : (s.bitsBuffered + s.bitsPerSense) % U64 = s.bitsBuffered + s.bitsPerSense - U64 := by
      have h2 : s.bitsBuffered + s.bitsPerSense - U64 < U64 := by
        have : (0:Nat) < U64 := by decide
        omega
      rw [Nat.mod_eq_sub_mod hw, Nat.mod_eq_of_lt h2]
    have hle : (s.bitsBuffered + s.bitsPerSense) % U64 ≤ s.maxBufferCapacity := by
      rw [hmod, hmax]
      have : (0:Nat) < U64 := by decide
      omega
    unfold Sensor.update
    rw [ht]
    simp only [if_true]
    split
    · rename_i hlt; exact absurd hle (by omega)
    · refine ⟨hmod, ?_, rfl, rfl⟩
      show (s.bitsBuffered + s.bitsPerSense) % U64 < s.bitsBuffered
      rw [hmod]
      omega

/-- C9, witness: a full buffer of `2^64 - 1` bits receiving one more bit
under the default capacity: the sum wraps to 0, the buffer is emptied, and
no loss is recorded. -/
theorem c9_wrapping_update_witness :
    c9WrapSensor.update.1.bitsBuffered = 0 ∧
    c9WrapSensor.update.1.totalBitsLost = 0 ∧
    c9WrapSensor.update.2 = [] := by
  have h := (c9_wrapping_update c9WrapSensor rfl (by decide)).2 rfl (by decide) (by decide)
  refine ⟨?_, h.2.2.1, h.2.2.2⟩
  have := h.1
  simpa using this

/-- The three strategy classes `SpacingFactory::createStrategy` can
instantiate (SpacingFactory.hpp). -/
inductive SpacingKind
  | closeSpaced
  | frameSpaced
  | orbitSpaced
deriving Repr, DecidableEq

/-- `SpacingFactory::createStrategy` (SpacingFactory.hpp lines 15-27):
returns a strategy for the recognised names and otherwise throws
`std::invalid_argument` with a descriptive message, modelled as `Except`. -/
def createStrategy (strategyName : String) : Except String SpacingKind :=
  if strategyName = "bent-pipe" ∨ strategyName = "bentpipe" ∨
     strategyName = "close-spaced" ∨ strategyName = "close" ∨
     strategyName = "closed" then
    .ok .closeSpaced
  else if strategyName = "frame-spaced" ∨ strategyName = "frame" then
    .ok .frameSpaced
  else if strategyName = "orbit-spaced" ∨ strategyName = "orbit" then
    .ok .orbitSpaced
  else
    .error ("Unknown spacing strategy: " ++ strategyName ++
      ". Valid options: bent-pipe, close-spaced, frame-spaced, orbit-spaced")

/-- The spacing names `createStrategy` accepts. -/
def acceptedSpacingNames : List String :=
  ["bent-pipe", "bentpipe", "close-spaced", "close", "closed",
   "frame-spaced", "frame", "orbit-spaced", "orbit"]

/-- C2, counterexample: the claimed valid set contains "close-orbit-spaced",
but `SpacingFactory::createStrategy` rejects that name with the unknown-
strategy error instead of returning a strategy. -/
theorem c2_counterexample :
    (createStrategy "close-orbit-spaced").isOk = false ∧
    createStrategy "close-orbit-spaced" =
      .error ("Unknown spacing strategy: close-orbit-spaced" ++
        ". Valid options: bent-pipe, close-spaced, frame-spaced, orbit-spaced") :=
  ⟨by decide, by rfl⟩

/-- C2 (amended): `createStrategy` succeeds exactly on the nine names
bent-pipe, bentpipe, close-spaced, close, closed, frame-spaced, frame,
orbit-spaced, orbit — close-orbit-spaced is not accepted — and fails on
every other name with the message "Unknown spacing strategy: X. Valid
options: bent-pipe, close-spaced, frame-spaced, orbit-spaced". -/
theorem c2_create_strategy (strategyName : String) :
    (strategyName ∈ acceptedSpacingNames ↔ (createStrategy strategyName).isOk = true) ∧
    (strategyName ∉ acceptedSpacingNames →
      createStrategy strategyName =
        .error ("Unknown spacing strategy: " ++ strategyName ++
          ". Valid options: bent-pipe, close-spaced, frame-spaced, orbit-spaced")) := by
  have herr : strategyName ∉ acceptedSpacingNames →
      createStrategy strategyName =
        .error ("Unknown spacing strategy: " ++ strategyName ++
          ". Valid options: bent-pipe, close-spaced, frame-spaced, orbit-spaced") := by
    intro hnm
    simp only [acceptedSpacingNames, List.mem_cons, List.not_mem_nil, or_false, not_or] at hnm
    obtain ⟨n1, n2, n3, n4, n5, n6, n7, n8, n9⟩ := hnm
    simp [createStrategy, n1, n2, n3, n4, n5, n6, n7, n8, n9]
  refine ⟨⟨fun hmem => ?_, fun hok => ?_⟩, herr⟩
  · fin_cases hmem <;> decide
  · by_contra hnm
    rw [herr hnm] at hok
    simp [Except.isOk, Except.toBool] at hok

/-- C2, witness: "close" is accepted while "foo" fails with the descriptive
message, both through `c2_create_strategy`. -/
theorem c2_create_strategy_witness :
    (createStrategy "close").isOk = true ∧
    createStrategy "foo" =
      .error ("Unknown spacing strategy: " ++ "foo" ++
        ". Valid options: bent-pipe, close-spaced, frame-spaced, orbit-spaced") :=
  ⟨(c2_create_strategy "close").1.mp (by decide),
   (c2_create_strategy "foo").2 (by decide)⟩

/-- Modelled from the spec: `cote::DateTime::update(second, nanosecond)`
(the cote DateTime class itself is not under src/) advances the wall clock
— here a nanosecond count — by the given whole seconds and nanoseconds. -/
def dtUpdate (t : Nat) (second : Nat) (nanosecond : Nat) : Nat :=
  t + second * 10 ^ 9 + nanosecond

/-- The default inter-cluster spacing of `CloseOrbitSpacedStrategy`
(CloseOrbitSpacedStrategy.hpp): `interDtSec = 540.0`. -/
def interDtSec : ℚ := 540

/-- `CloseOrbitSpacedStrategy::advanceBySeconds(t, dt)`
(CloseOrbitSpacedStrategy.hpp lines 20-24).  The C++ `double dt` is modelled
as a rational (`std::floor` and `std::llround` are exact on the values in
question; `llround`, half-away-from-zero, coincides with `⌊x + 1/2⌋` on the
non-negative fractional parts that arise); `static_cast<uint8_t>(whole)`
reduces the whole-second count mod 256 and `static_cast<uint32_t>(ns)`
reduces the nanosecond count mod 2^32 before they reach
`DateTime::update`. -/
def advanceBySeconds (t : Nat) (dt : ℚ) : Nat :=
  let whole : ℤ := ⌊dt⌋
  let ns : ℤ := round ((dt - (whole : ℚ)) * 10 ^ 9)
  dtUpdate t (whole % 256).toNat (ns % 2 ^ 32).toNat

/-- C3: at the default `inter_dt_sec = 540` the `uint8_t` cast inside
`advanceBySeconds` truncates the whole-second count to `540 mod 256 = 28`,
so the clock advances by 28 seconds, not the 540 seconds the claim (and the
strategy's own stated intent of ~9-minute inter-cluster spacing) requires. -/
theorem c3_advance_truncates :
    advanceBySeconds 0 interDtSec = 28 * 10 ^ 9 ∧
    advanceBySeconds 0 interDtSec ≠ 540 * 10 ^ 9 := by
  have h : advanceBySeconds 0 interDtSec = 28 * 10 ^ 9 := by
    simp only [advanceBySeconds, dtUpdate, interDtSec]
    norm_num
    decide
  exact ⟨h, by rw [h]; decide⟩

/-- `ShortestJobFirstPolicy::makeSchedulingDecision` (src/unnamed/part_003):
the body is a stub (marked TODO in the source) that scans `visibleSats` in
order and returns the first satellite whose sensor has `bitsBuffered > 0`,
ignoring `currentSat`, the step count and any minimum-connection timer.
Satellites are identified by id; `sensors` maps a satellite id to its
buffered bit count (the `satId2Sensor` map). -/
def sjfDecide (visibleSats : List Nat) (sensors : Nat → Nat)
    (currentSat : Option Nat) (stepCount : Nat) : Option Nat :=
  visibleSats.find? (fun satId => decide (0 < sensors satId))

/-- The buffer assignment of the spec's SJF scenario: A = sat 1 with 100,
B = sat 2 with 50, C = sat 3 with 200. -/
def c5Sensors : Nat → Nat :=
  fun satId => if satId = 1 then 100 else if satId = 2 then 50 else
    if satId = 3 then 200 else 0

/-- C5: on visible satellites A:100, B:50, C:200 the sjf policy returns A
(the first satellite with a non-empty buffer), not B (the smallest buffer)
as the claim requires; the timer state the claim mentions does not even
exist in the stub. -/
theorem c5_sjf_stub :
    sjfDecide [1, 2, 3] c5Sensors none 100 = some 1 ∧ (1 : Nat) ≠ 2 := by
  constructor <;> decide

/-- State of `FrameSpacedStrategy` (FrameSpacedStrategy.hpp): the frame
counter and the cached constellation size. -/
structure FrameSpacedState where
  frameCount : Nat
  satelliteCount : Nat
deriving Repr, DecidableEq

/-- `FrameSpacedStrategy::executeObservation` (FrameSpacedStrategy.hpp lines
95-124): caches the constellation size, increments `frameCount`, and only
when the incremented count is divisible by the constellation size resets it
to zero, emits one `trigger-time` event and triggers every satellite;
otherwise it triggers none.  Returns (new state, ids triggered, number of
`trigger-time` events emitted); the floating-point refresh of
`satId2ThresholdKm` is not touched by the claim and is not modelled. -/
def fsExecuteObservation (satellites : List Nat) (s : FrameSpacedState) :
    FrameSpacedState × List Nat × Nat :=
  let fc := s.frameCount + 1
  if fc % satellites.length = 0 then
    (⟨0, satellites.length⟩, satellites, 1)
  else
    (⟨fc, satellites.length⟩, [], 0)

/-- Number of `trigger-time` events emitted over `k` consecutive calls of
`fsExecuteObservation` starting from state `s`. -/
def fsEventCount (satellites : List Nat) (s : FrameSpacedState) : Nat → Nat
  | 0 => 0
  | k + 1 =>
    (fsExecuteObservation satellites s).2.2 +
      fsEventCount satellites (fsExecuteObservation satellites s).1 k

/-- While the frame counter stays strictly below the constellation size, no
call of `fsExecuteObservation` emits a `trigger-time` event. -/
theorem fsEventCount_eq_zero (satellites : List Nat) (sc c k : Nat)
    (h : c + k < satellites.length) :
    fsEventCount satellites ⟨c, sc⟩ k = 0 := by
  induction k generalizing c sc with
  | zero => rfl
  | succ k ih =>
    have hlt : c + 1 < satellites.length := by omega
    have hne : (c + 1) % satellites.length ≠ 0 := by
      rw [Nat.mod_eq_of_lt hlt]
      omega
    simp only [fsEventCount, fsExecuteObservation, if_neg hne, Nat.zero_add]
    exact ih satellites.length (c + 1) (by omega)

/-- Over any `k ≤ N` consecutive calls (`N` the constellation size), the
frame-spaced strategy emits at most one `trigger-time` event. -/
theorem fsEventCount_le_one (satellites : List Nat) (sc c k : Nat)
    (hk : k ≤ satellites.length) :
    fsEventCount satellites ⟨c, sc⟩ k ≤ 1 := by
  induction k generalizing c sc with
  | zero => simp [fsEventCount]
  | succ k ih =>
    by_cases h : (c + 1) % satellites.length = 0
    · have hlen : 0 < satellites.length := by
        rcases Nat.eq_zero_or_pos satellites.length with h0 | h0
        · rw [h0, Nat.mod_zero] at h; omega
        · exact h0
      have h0 : fsEventCount satellites ⟨0, satellites.length⟩ k = 0 :=
        fsEventCount_eq_zero satellites satellites.length 0 k (by omega)
      simp only [fsEventCount, fsExecuteObservation, if_pos h, h0]
      omega
    · simp only [fsEventCount, fsExecuteObservation, if_neg h, Nat.zero_add]
      exact ih satellites.length (c + 1) (by omega)

/-- C4: in frame-spaced mode with constellation size `N > 0`, every call of
`executeObservation` increments the internal frame counter; exactly on the
calls where the incremented counter is divisible by `N` it emits one
`trigger-time` event, triggers all `N` satellites at once and resets the
counter to zero, and on every other call it triggers no satellite; hence
over any window of `N` consecutive calls at most one `trigger-time` event is
emitted. -/
theorem c4_frame_spaced (satellites : List Nat) (s : FrameSpacedState)
    (hN : 0 < satellites.length) :
    ((s.frameCount + 1) % satellites.length = 0 →
      (fsExecuteObservation satellites s).2.1 = satellites ∧
      (fsExecuteObservation satellites s).2.2 = 1 ∧
      (fsExecuteObservation satellites s).1.frameCount = 0) ∧
    ((s.frameCount + 1) % satellites.length ≠ 0 →
      (fsExecuteObservation satellites s).2.1 = [] ∧
      (fsExecuteObservation satellites s).2.2 = 0 ∧
      (fsExecuteObservation satellites s).1.frameCount = s.frameCount + 1) ∧
    fsEventCount satellites s satellites.length ≤ 1 := by
  refine ⟨fun h => ?_, fun h => ?_, ?_⟩
  · simp [fsExecuteObservation, h]
  · simp [fsExecuteObservation, h]
  · exact fsEventCount_le_one satellites s.satelliteCount s.frameCount
      satellites.length (Nat.le_refl _)

/-- C4, witness: with two satellites and frame counter 1, the next call
(counter reaching 2) triggers both satellites, emits one event and resets;
and two consecutive calls from a fresh strategy emit at most one event. -/
theorem c4_frame_spaced_witness :
    (fsExecuteObservation [10, 20] ⟨1, 2⟩).2.1 = [10, 20] ∧
    (fsExecuteObservation [10, 20] ⟨1, 2⟩).2.2 = 1 ∧
    (fsExecuteObservation [10, 20] ⟨1, 2⟩).1.frameCount = 0 ∧
    fsEventCount [10, 20] ⟨0, 0⟩ 2 ≤ 1 := by
  have h := (c4_frame_spaced [10, 20] ⟨1, 2⟩ (by decide)).1 (by decide)
  exact ⟨h.1, h.2.1, h.2.2, (c4_frame_spaced [10, 20] ⟨0, 0⟩ (by decide)).2.2⟩

/-- The 30-step minimum-connection time shared by the timer-based link
policies. -/
def minConnectionSteps : Nat := 30

/-- Per-ground-station state of `RoundRobinPolicy` (RoundRobinPolicy.hpp):
the satellite id queue, the in-queue tracking set (modelled as a list, only
membership matters) and the connection-start step.  The C++ maps
default-construct missing entries, so a fresh ground station starts from
`⟨[], [], 0⟩`. -/
structure RRState where
  queue : List Nat
  inQueue : List Nat
  connectionStartStep : Nat
deriving Repr, DecidableEq

/-- The queue-maintenance loop shared by `RoundRobinPolicy` and the queued
FIFO variant: append every visible satellite id not yet in the in-queue set
to the back of the queue and insert it into the set (which is updated as the
loop runs).  Returns (queue, in-queue set). -/
def enqueueNew (vis : List Nat) (q inq : List Nat) : List Nat × List Nat :=
  match vis with
  | [] => (q, inq)
  | v :: rest =>
    if v ∈ inq then enqueueNew rest q inq
    else enqueueNew rest (q ++ [v]) (v :: inq)

/-- The while-loop of `RoundRobinPolicy::makeSchedulingDecision`: pop ids
from the front of the queue until one is found that is currently visible
and has buffered data; return it together with the remaining queue (the
whole queue is consumed if none qualifies). -/
def rrSelect (vis : List Nat) (sensors : Nat → Nat) :
    List Nat → Option Nat × List Nat
  | [] => (none, [])
  | f :: rest =>
    if f ∈ vis ∧ 0 < sensors f then (some f, rest)
    else rrSelect vis sensors rest

/-- The hold guard shared by the timer policies: keep `currentSat` while it
is visible and the `uint64` difference `stepCount - connectionStartStep` is
below the 30-step minimum. -/
def holdGuard (vis : List Nat) (start : Nat) (currentSat : Option Nat)
    (stepCount : Nat) : Bool :=
  match currentSat with
  | some c => decide (c ∈ vis) && decide (u64sub stepCount start < minConnectionSteps)
  | none => false

/-- `RoundRobinPolicy::makeSchedulingDecision` (RoundRobinPolicy.hpp lines
24-94).  Satellites are identified by id (`sat_id` is unique within a
simulation, so the C++ pointer comparison against `currentSat` is id
equality); `sensors` is the read-only `satId2Sensor` view mapping an id to
its buffered bits; `vis` is the ordered visible-id list for this ground
station.  Returns the new per-station state and the selection. -/
def rrDecide (vis : List Nat) (sensors : Nat → Nat) (s : RRState)
    (currentSat : Option Nat) (stepCount : Nat) : RRState × Option Nat :=
  if holdGuard vis s.connectionStartStep currentSat stepCount then
    (s, currentSat)
  else
    let qi := enqueueNew vis s.queue s.inQueue
    let inq2 := qi.2.filter (fun x => decide (x ∈ vis))
    match rrSelect vis sensors qi.1 with
    | (some x, q2) => (⟨q2, inq2, stepCount⟩, some x)
    | (none, q2) => (⟨q2, inq2, s.connectionStartStep⟩, none)

/-- The deque loop of `FIFOPolicy::makeSchedulingDecision` (FIFOPolicy.hpp,
deque variant, lines 117-198): pop from the front, discarding ids that are
no longer visible or whose sensor is empty, returning the first id that is
visible with data. -/
def fifoSelect (vis : List Nat) (sensors : Nat → Nat) :
    List Nat → Option Nat × List Nat
  | [] => (none, [])
  | f :: rest =>
    if f ∈ vis then
      if 0 < sensors f then (some f, rest) else fifoSelect vis sensors rest
    else fifoSelect vis sensors rest

/-- The enqueue loop of the deque FIFO variant: append each visible id not
already somewhere in the deque (duplicate check scans the deque itself). -/
def fifoEnqueue (vis : List Nat) (q : List Nat) : List Nat :=
  match vis with
  | [] => q
  | v :: rest =>
    if v ∈ q then fifoEnqueue rest q else fifoEnqueue rest (q ++ [v])

/-- `FIFOPolicy::makeSchedulingDecision` (FIFOPolicy.hpp lines 117-198, the
completion-driven deque variant): hold the current satellite while it is
visible with a non-empty buffer, otherwise refresh the deque and pop the
first visible id with data.  Returns the new deque and the selection. -/
def fifoDecide (vis : List Nat) (sensors : Nat → Nat) (q : List Nat)
    (currentSat : Option Nat) : List Nat × Option Nat :=
  let holdB := match currentSat with
    | some c => decide (c ∈ vis) && decide (0 < sensors c)
    | none => false
  if holdB then (q, currentSat)
  else
    let q1 := fifoEnqueue vis q
    let r := fifoSelect vis sensors q1
    (r.2, r.1)

/-- `RandomPolicy::makeSchedulingDecision` (src/unnamed/part_004).  The
mt19937 draw `dist(rng)` — a uniform index into the eligible list — is
abstracted as the oracle input `k` reduced modulo the list length; the
properties proved below hold for every draw.  Returns the new
connection-start step for this ground station and the selection. -/
def randomDecide (vis : List Nat) (sensors : Nat → Nat) (start : Nat)
    (currentSat : Option Nat) (stepCount : Nat) (k : Nat) : Nat × Option Nat :=
  if holdGuard vis start currentSat stepCount then
    (start, currentSat)
  else
    let eligibleSats := vis.filter (fun satId => decide (0 < sensors satId))
    if h : eligibleSats = [] then (start, none)
    else
      (stepCount,
       some (eligibleSats.get ⟨k % eligibleSats.length,
         Nat.mod_lt _ (List.length_pos.mpr h)⟩))

/-- The best-buffer scan of `StickyPolicy::makeSchedulingDecision`
(src/unnamed/part_009): walk `vis`, replacing the running best whenever a
non-occupied satellite has strictly more buffered bits than the best so far
(which starts at 0, so empty-buffer satellites are never picked). -/
def stickyBestFold (sensors : Nat → Nat) (occupied : Nat → Bool) :
    List Nat → Option Nat → Nat → Option Nat
  | [], best, _ => best
  | satId :: rest, best, bestBuf =>
    if ¬ occupied satId ∧ bestBuf < sensors satId then
      stickyBestFold sensors occupied rest (some satId) (sensors satId)
    else stickyBestFold sensors occupied rest best bestBuf

/-- `StickyPolicy::makeSchedulingDecision` (src/unnamed/part_009): keep the
current satellite whenever it is still visible; otherwise pick the visible,
non-occupied satellite with the largest non-zero buffer, ties broken by the
earliest position in `vis`. -/
def stickyDecide (vis : List Nat) (sensors : Nat → Nat) (occupied : Nat → Bool)
    (currentSat : Option Nat) : Option Nat :=
  match currentSat with
  | some c =>
    if c ∈ vis then some c else stickyBestFold sensors occupied vis none 0
  | none => stickyBestFold sensors occupied vis none 0

/-- `ShortestRemainingTimePolicy::makeSchedulingDecision`
(SpacingStrategy.hpp lines 69-97, appended after the strategy interface):
like the SJF policy, the body is a stub (marked TODO in the source) that
scans `visibleSats` in order and returns the first satellite whose sensor
has `bitsBuffered > 0`, ignoring `currentSat`, the step count and any
minimum-connection timer. -/
def srtfDecide (visibleSats : List Nat) (sensors : Nat → Nat)
    (currentSat : Option Nat) (stepCount : Nat) : Option Nat :=
  visibleSats.find? (fun satId => decide (0 < sensors satId))

/-- Whatever `stickyBestFold` returns beyond its initial accumulator lies in
the scanned list. -/
theorem stickyBestFold_mem (sensors : Nat → Nat) (occupied : Nat → Bool)
    (vis : List Nat) (best : Option Nat) (bestBuf x : Nat)
    (h : stickyBestFold sensors occupied vis best bestBuf = some x) :
    best = some x ∨ x ∈ vis := by
  induction vis generalizing best bestBuf with
  | nil =>
    simp only [stickyBestFold] at h
    exact Or.inl h
  | cons v rest ih =>
    rw [stickyBestFold] at h
    split at h
    · rcases ih _ _ h with h1 | h1
      · cases h1
        exact Or.inr (List.mem_cons_self _ _)
      · exact Or.inr (List.mem_cons_of_mem _ h1)
    · rcases ih _ _ h with h1 | h1
      · exact Or.inl h1
      · exact Or.inr (List.mem_cons_of_mem _ h1)

/-- An id selected by the round-robin pop loop is visible. -/
theorem rrSelect_mem (vis : List Nat) (sensors : Nat → Nat) (q : List Nat)
    (x : Nat) (h : (rrSelect vis sensors q).1 = some x) : x ∈ vis := by
  induction q with
  | nil => simp [rrSelect] at h
  | cons f rest ih =>
    rw [rrSelect] at h
    split at h
    · rename_i hc
      simp only at h
      cases h
      exact hc.1
    · exact ih h

/-- An id selected by the FIFO pop loop is visible. -/
theorem fifoSelect_mem (vis : List Nat) (sensors : Nat → Nat) (q : List Nat)
    (x : Nat) (h : (fifoSelect vis sensors q).1 = some x) : x ∈ vis := by
  induction q with
  | nil => simp [fifoSelect] at h
  | cons f rest ih =>
    rw [fifoSelect] at h
    split at h
    · rename_i hc
      split at h
      · simp only at h
        cases h
        exact hc
      · exact ih h
    · exact ih h

/-- If the hold guard fires, the held satellite is visible. -/
theorem holdGuard_mem (vis : List Nat) (start : Nat) (c stepCount : Nat)
    (h : holdGuard vis start (some c) stepCount = true) :
    c ∈ vis ∧ u64sub stepCount start < minConnectionSteps := by
  simpa [holdGuard] using h

/-- C7: every link policy variant — sticky, fifo, round-robin, random, and
the sjf and srtf stubs — returns only satellites drawn from the visible
list passed for the ground station at that step. -/
theorem c7_visibility_safety (vis : List Nat) (sensors : Nat → Nat)
    (occupied : Nat → Bool) (q : List Nat) (s : RRState)
    (currentSat : Option Nat) (stepCount k x : Nat) :
    (stickyDecide vis sensors occupied currentSat = some x → x ∈ vis) ∧
    ((fifoDecide vis sensors q currentSat).2 = some x → x ∈ vis) ∧
    ((rrDecide vis sensors s currentSat stepCount).2 = some x → x ∈ vis) ∧
    ((randomDecide vis sensors s.connectionStartStep currentSat stepCount k).2
        = some x → x ∈ vis) ∧
    (sjfDecide vis sensors currentSat stepCount = some x → x ∈ vis) ∧
    (srtfDecide vis sensors currentSat stepCount = some x → x ∈ vis) := by
  refine ⟨?_, ?_, ?_, ?_, ?_, ?_⟩
  · intro h
    cases currentSat with
    | none =>
      simp only [stickyDecide] at h
      rcases stickyBestFold_mem _ _ _ _ _ _ h with h1 | h1
      · exact absurd h1 (by simp)
      · exact h1
    | some c =>
      simp only [stickyDecide] at h
      split at h
      · rename_i hcv
        obtain rfl : c = x := by simpa using h
        exact hcv
      · rcases stickyBestFold_mem _ _ _ _ _ _ h with h1 | h1
        · exact absurd h1 (by simp)
        · exact h1
  · cases currentSat with
    | none =>
      intro h
      simp only [fifoDecide, Bool.false_eq_true, if_false] at h
      exact fifoSelect_mem _ _ _ _ h
    | some c =>
      intro h
      simp only [fifoDecide] at h
      split at h
      · rename_i hhold
        simp only [Bool.and_eq_true, decide_eq_true_eq] at hhold
        obtain rfl : c = x := by simpa using h
        exact hhold.1
      · exact fifoSelect_mem _ _ _ _ h
  · cases currentSat with
    | none =>
      intro h
      simp only [rrDecide, holdGuard, Bool.false_eq_true, if_false] at h
      split at h <;> rename_i heq
      · obtain rfl : _ = x := by simpa using h
        exact rrSelect_mem _ _ _ _ (congrArg Prod.fst heq)
      · simp at h
    | some c =>
      intro h
      simp only [rrDecide] at h
      split at h
      · rename_i hhold
        obtain rfl : c = x := by simpa using h
        exact (holdGuard_mem _ _ _ _ hhold).1
      · split at h <;> rename_i heq
        · obtain rfl : _ = x := by simpa using h
          exact rrSelect_mem _ _ _ _ (congrArg Prod.fst heq)
        · simp at h
  · cases currentSat with
    | none =>
      intro h
      simp only [randomDecide, holdGuard, Bool.false_eq_true, if_false] at h
      split at h
      · simp at h
      · obtain rfl : _ = x := by simpa using h
        exact (List.mem_filter.mp (List.get_mem _ _ _)).1
    | some c =>
      intro h
      simp only [randomDecide] at h
      split at h
      · rename_i hhold
        obtain rfl : c = x := by simpa using h
        exact (holdGuard_mem _ _ _ _ hhold).1
      · split at h
        · simp at h
        · obtain rfl : _ = x := by simpa using h
          exact (List.mem_filter.mp (List.get_mem _ _ _)).1
  · intro h
    unfold sjfDecide at h
    exact List.mem_of_find?_eq_some h
  · intro h
    unfold srtfDecide at h
    exact List.mem_of_find?_eq_some h

/-- C7, witness: on the concrete input of two visible satellites with data,
each of the six policies returns a satellite of the visible list. -/
theorem c7_visibility_safety_witness :
    (1 : Nat) ∈ [1, 2] ∧ (2 : Nat) ∈ [1, 2] := by
  have hs := c7_visibility_safety [1, 2] (fun _ => 5) (fun _ => false) []
    ⟨[], [], 0⟩ none 0 0 1
  have hf := c7_visibility_safety [1, 2] (fun _ => 5) (fun _ => false) []
    ⟨[], [], 0⟩ (some 2) 0 0 2
  exact ⟨hs.2.2.2.2.1 (by decide), (hf.1 (by decide))⟩

/-- C6: for the round-robin and random policies, a returned selection that
differs from a non-null, still-visible current satellite implies the
`uint64` step difference `stepCount - connectionStartStep` has reached the
30-step minimum, and the connection-start step is set to the current step on
every selection that differs from the previous current satellite. -/
theorem c6_min_connection (vis : List Nat) (sensors : Nat → Nat) (s : RRState)
    (start : Nat) (currentSat : Option Nat) (stepCount k x : Nat) :
    ((rrDecide vis sensors s currentSat stepCount).2 = some x →
      currentSat ≠ some x →
      (∀ c, currentSat = some c → c ∈ vis →
        minConnectionSteps ≤ u64sub stepCount s.connectionStartStep) ∧
      (rrDecide vis sensors s currentSat stepCount).1.connectionStartStep
        = stepCount) ∧
    ((randomDecide vis sensors start currentSat stepCount k).2 = some x →
      currentSat ≠ some x →
      (∀ c, currentSat = some c → c ∈ vis →
        minConnectionSteps ≤ u64sub stepCount start) ∧
      (randomDecide vis sensors start currentSat stepCount k).1 = stepCount) := by
  constructor
  · intro h hne
    by_cases hg : holdGuard vis s.connectionStartStep currentSat stepCount
    · rw [rrDecide, if_pos hg] at h
      exact absurd h hne
    · constructor
      · intro c hc hcv
        subst hc
        simp only [holdGuard, Bool.and_eq_true, decide_eq_true_eq] at hg
        have hnlt : ¬ u64sub stepCount s.connectionStartStep < minConnectionSteps :=
          fun hlt => hg ⟨hcv, hlt⟩
        omega
      · simp only [rrDecide, if_neg hg] at h ⊢
        rcases hsel : rrSelect vis sensors (enqueueNew vis s.queue s.inQueue).1
          with ⟨r, q2⟩
        rw [hsel] at h
        cases r with
        | none => simp at h
        | some y => rfl
  · intro h hne
    by_cases hg : holdGuard vis start currentSat stepCount
    · rw [randomDecide, if_pos hg] at h
      exact absurd h hne
    · constructor
      · intro c hc hcv
        subst hc
        simp only [holdGuard, Bool.and_eq_true, decide_eq_true_eq] at hg
        have hnlt : ¬ u64sub stepCount start < minConnectionSteps :=
          fun hlt => hg ⟨hcv, hlt⟩
        omega
      · simp only [randomDecide, if_neg hg] at h ⊢
        split at h
        · simp at h
        · rename_i he
          rw [dif_neg he]

/-- C6, witness: with both satellites holding data and the timer expired at
step 30, round-robin rotates from satellite 1 to 2 recording step 30, and
the random policy (draw index 1) switches to satellite 2 recording
step 30. -/
theorem c6_min_connection_witness :
    minConnectionSteps ≤ u64sub 30 0 ∧
    (rrDecide [1, 2] (fun _ => 5) ⟨[2], [1, 2], 0⟩ (some 1) 30).1.connectionStartStep
      = 30 ∧
    (randomDecide [1, 2] (fun _ => 5) 0 (some 1) 30 1).1 = 30 := by
  have h := c6_min_connection [1, 2] (fun _ => 5) ⟨[2], [1, 2], 0⟩ 0 (some 1) 30 1 2
  have h1 := h.1 (by decide) (by decide)
  have h2 := h.2 (by decide) (by decide)
  exact ⟨h1.1 1 rfl (by decide), h1.2, h2.2⟩

/-- `enqueueNew` leaves the in-queue set membership intact. -/
theorem enqueueNew_inq_mem (vis q inq : List Nat) (x : Nat) (hx : x ∈ inq) :
    x ∈ (enqueueNew vis q inq).2 := by
  induction vis generalizing q inq with
  | nil => exact hx
  | cons v rest ih =>
    rw [enqueueNew]
    split
    · exact ih _ _ hx
    · exact ih _ _ (List.mem_cons_of_mem _ hx)

/-- `enqueueNew` never appends an id already tracked in the in-queue set:
such an id keeps exactly the queue occurrences it already had. -/
theorem enqueueNew_count (vis q inq : List Nat) (x : Nat) (hx : x ∈ inq) :
    ((enqueueNew vis q inq).1).count x = q.count x := by
  induction vis generalizing q inq with
  | nil => rfl
  | cons v rest ih =>
    rw [enqueueNew]
    split
    · exact ih q inq hx
    · rename_i hv
      have hxv : x ≠ v := fun he => hv (he ▸ hx)
      rw [ih (q ++ [v]) (v :: inq) (List.mem_cons_of_mem _ hx)]
      simp [List.count_append, List.count_cons, hxv]

/-- An id absent from the queue and tracked in the in-queue set is still
absent after `enqueueNew`. -/
theorem enqueueNew_not_mem (vis q inq : List Nat) (x : Nat) (hinq : x ∈ inq)
    (hq : x ∉ q) : x ∉ (enqueueNew vis q inq).1 := by
  induction vis generalizing q inq with
  | nil => exact hq
  | cons v rest ih =>
    rw [enqueueNew]
    split
    · exact ih _ _ hinq hq
    · rename_i hv
      apply ih _ _ (List.mem_cons_of_mem _ hinq)
      intro hmem
      rcases List.mem_append.mp hmem with h1 | h1
      · exact hq h1
      · obtain rfl := List.mem_singleton.mp h1
        exact hv hinq

/-- The queue left behind by the round-robin pop loop is a suffix of the
queue it started from. -/
theorem rrSelect_suffix (vis : List Nat) (sensors : Nat → Nat) (q : List Nat) :
    (rrSelect vis sensors q).2 <:+ q := by
  induction q with
  | nil => simp [rrSelect]
  | cons f rest ih =>
    rw [rrSelect]
    split
    · exact List.suffix_cons f rest
    · exact ih.trans (List.suffix_cons f rest)

/-- An id selected by the round-robin pop loop was in the queue. -/
theorem rrSelect_mem_queue (vis : List Nat) (sensors : Nat → Nat)
    (q : List Nat) (y : Nat) (h : (rrSelect vis sensors q).1 = some y) :
    y ∈ q := by
  induction q with
  | nil => simp [rrSelect] at h
  | cons f rest ih =>
    rw [rrSelect] at h
    split at h
    · obtain rfl : f = y := by simpa using h
      exact List.mem_cons_self _ _
    · exact List.mem_cons_of_mem _ (ih h)

/-- C10 single-call kernel: a visible satellite id that is tracked in the
in-queue set and absent from the queue stays so across one round-robin call,
and the call can return it only as the held current satellite, never freshly
from the queue. -/
theorem rrDecide_no_reselect (vis : List Nat) (sensors : Nat → Nat)
    (s : RRState) (currentSat : Option Nat) (stepCount x : Nat)
    (hvis : x ∈ vis) (hinq : x ∈ s.inQueue) (hq : x ∉ s.queue) :
    (x ∈ (rrDecide vis sensors s currentSat stepCount).1.inQueue ∧
     x ∉ (rrDecide vis sensors s currentSat stepCount).1.queue) ∧
    ((rrDecide vis sensors s currentSat stepCount).2 = some x →
      currentSat = some x) := by
  by_cases hg : holdGuard vis s.connectionStartStep currentSat stepCount
  · simp only [rrDecide, if_pos hg]
    exact ⟨⟨hinq, hq⟩, fun h => h⟩
  · simp only [rrDecide, if_neg hg]
    have hq1 : x ∉ (enqueueNew vis s.queue s.inQueue).1 :=
      enqueueNew_not_mem vis s.queue s.inQueue x hinq hq
    have hinq1 : x ∈ (enqueueNew vis s.queue s.inQueue).2 :=
      enqueueNew_inq_mem vis s.queue s.inQueue x hinq
    have hinq2 : x ∈ List.filter (fun y => decide (y ∈ vis))
        (enqueueNew vis s.queue s.inQueue).2 :=
      List.mem_filter.mpr ⟨hinq1, by simpa using hvis⟩
    rcases hsel : rrSelect vis sensors (enqueueNew vis s.queue s.inQueue).1
      with ⟨r, q2⟩
    have hq2 : x ∉ q2 := by
      intro hm
      have hsuf : q2 <:+ (enqueueNew vis s.queue s.inQueue).1 := by
        have := rrSelect_suffix vis sensors (enqueueNew vis s.queue s.inQueue).1
        rwa [hsel] at this
      exact hq1 (hsuf.sublist.subset hm)
    cases r with
    | none => exact ⟨⟨hinq2, hq2⟩, fun h => by simp at h⟩
    | some y =>
      refine ⟨⟨hinq2, hq2⟩, fun h => ?_⟩
      obtain rfl : y = x := by simpa using h
      exact absurd (rrSelect_mem_queue _ _ _ _ (congrArg Prod.fst hsel)) hq1

/-- One driver input to the round-robin policy: the visible id list, the
sensor view, the current satellite handed in, and the step number. -/
abbrev RRInput := List Nat × (Nat → Nat) × Option Nat × Nat

/-- Whether some call of the input sequence, starting from state `s`,
freshly selects `x`: returns it while it was not already the current
satellite. -/
def rrFreshSelects (x : Nat) (s : RRState) : List RRInput → Bool
  | [] => false
  | (vis, sensors, cur, t) :: rest =>
    (decide ((rrDecide vis sensors s cur t).2 = some x) &&
        decide (cur ≠ some x)) ||
      rrFreshSelects x (rrDecide vis sensors s cur t).1 rest

/-- While `x` stays visible, a state in which `x` is tracked in the in-queue
set and absent from the queue never freshly selects `x` again, over any
sequence of calls. -/
theorem rrFreshSelects_false (x : Nat) (s : RRState) (inputs : List RRInput)
    (hinq : x ∈ s.inQueue) (hq : x ∉ s.queue)
    (hvis : ∀ inp ∈ inputs, x ∈ inp.1) :
    rrFreshSelects x s inputs = false := by
  induction inputs generalizing s with
  | nil => rfl
  | cons inp rest ih =>
    obtain ⟨vis, sensors, cur, t⟩ := inp
    have hv : x ∈ vis := hvis _ (List.mem_cons_self _ _)
    have hstep := rrDecide_no_reselect vis sensors s cur t x hv hinq hq
    have h1 : (decide ((rrDecide vis sensors s cur t).2 = some x) &&
        decide (cur ≠ some x)) = false := by
      by_cases hr : (rrDecide vis sensors s cur t).2 = some x
      · have hc := hstep.2 hr
        simp [hc]
      · simp [hr]
    rw [rrFreshSelects, h1, Bool.false_or]
    exact ih _ hstep.1.1 hstep.1.2 fun inp hm => hvis _ (List.mem_cons_of_mem _ hm)

/-- C10 (amended): a satellite id tracked in a ground station's in-queue set
is not removed from it while visible, and is never re-appended to the queue
(its occurrence count never grows); consequently an id that is tracked and
absent from the queue — the state produced when its only queue entry was
popped — is never freshly selected from the queue again while it remains
continuously visible.  (Stale duplicate queue entries appended in earlier
visibility intervals can defeat the original claim; see the
counterexample.) -/
theorem c10_rr_queue_tracking (vis : List Nat) (sensors : Nat → Nat)
    (s : RRState) (currentSat : Option Nat) (stepCount x : Nat)
    (inputs : List RRInput) :
    (x ∈ vis → x ∈ s.inQueue →
      x ∈ (rrDecide vis sensors s currentSat stepCount).1.inQueue) ∧
    (x ∈ s.inQueue →
      ((rrDecide vis sensors s currentSat stepCount).1.queue).count x ≤
        (s.queue).count x) ∧
    (x ∈ s.inQueue → x ∉ s.queue → (∀ inp ∈ inputs, x ∈ inp.1) →
      rrFreshSelects x s inputs = false) := by
  refine ⟨?_, ?_, fun h1 h2 h3 => rrFreshSelects_false x s inputs h1 h2 h3⟩
  · intro hvis hinq
    by_cases hg : holdGuard vis s.connectionStartStep currentSat stepCount
    · simpa only [rrDecide, if_pos hg] using hinq
    · simp only [rrDecide, if_neg hg]
      have hinq2 : x ∈ List.filter (fun y => decide (y ∈ vis))
          (enqueueNew vis s.queue s.inQueue).2 :=
        List.mem_filter.mpr ⟨enqueueNew_inq_mem vis s.queue s.inQueue x hinq,
          by simpa using hvis⟩
      rcases hsel : rrSelect vis sensors (enqueueNew vis s.queue s.inQueue).1
        with ⟨r, q2⟩
      cases r with
      | none => exact hinq2
      | some y => exact hinq2
  · intro hinq
    by_cases hg : holdGuard vis s.connectionStartStep currentSat stepCount
    · simp only [rrDecide, if_pos hg]
      exact Nat.le_refl _
    · simp only [rrDecide, if_neg hg]
      have hcount : ((enqueueNew vis s.queue s.inQueue).1).count x
          = (s.queue).count x :=
        enqueueNew_count vis s.queue s.inQueue x hinq
      rcases hsel : rrSelect vis sensors (enqueueNew vis s.queue s.inQueue).1
        with ⟨r, q2⟩
      have hsuf : q2 <:+ (enqueueNew vis s.queue s.inQueue).1 := by
        have := rrSelect_suffix vis sensors (enqueueNew vis s.queue s.inQueue).1
        rwa [hsel] at this
      have hle : q2.count x ≤ ((enqueueNew vis s.queue s.inQueue).1).count x :=
        hsuf.sublist.count_le x
      cases r with
      | none => exact hcount ▸ hle
      | some y => exact hcount ▸ hle

/-- C10, witness: satellite 1, visible, tracked in the in-queue set with an
empty queue, stays tracked, gains no queue entry, and is never freshly
selected across a further call. -/
theorem c10_rr_queue_tracking_witness :
    (1 : Nat) ∈ (rrDecide [1] (fun _ => 5) ⟨[], [1], 0⟩ none 0).1.inQueue ∧
    ((rrDecide [1] (fun _ => 5) ⟨[], [1], 0⟩ none 0).1.queue).count 1 = 0 ∧
    rrFreshSelects 1 ⟨[], [1], 0⟩ [([1], fun _ => 5, none, 0)] = false := by
  have h := c10_rr_queue_tracking [1] (fun _ => 5) ⟨[], [1], 0⟩ none 0 1
    [([1], fun _ => 5, none, 0)]
  refine ⟨h.1 (by decide) (by decide), ?_, h.2.2 (by decide) (by decide) ?_⟩
  · have hle := h.2.1 (by decide)
    simpa using hle
  · intro inp hm
    rw [List.mem_singleton] at hm
    subst hm
    decide

/-- Visibility schedule of the C10 counterexample (buffers are constant 5
bits): all five satellites are visible up to step 30, satellites 4 and 5
leave view for (31,60], satellite 4 returns for (60,90], and all five are
visible from step 91 on.  Satellite 4 is continuously visible from step 61
onward. -/
def c10Vis (t : Nat) : List Nat :=
  if t ≤ 30 then [1, 2, 3, 4, 5]
  else if t ≤ 60 then [1, 2, 3]
  else if t ≤ 90 then [1, 2, 3, 4]
  else [1, 2, 3, 4, 5]

/-- The round-robin driver of the C10 counterexample: starting from the
fresh per-station state, step `n` feeds `c10Vis n`, the previous selection
as `currentSat`, and the step number into `rrDecide`.  `c10Run (n + 1)` is
the state after steps `0..n` together with the selection made at step
`n`. -/
def c10Run : Nat → RRState × Option Nat
  | 0 => (⟨[], [], 0⟩, none)
  | n + 1 => rrDecide (c10Vis n) (fun _ => 5) (c10Run n).1 (c10Run n).2 n

set_option maxRecDepth 100000

/-- C10, counterexample: satellite 4 is freshly selected from the queue at
step 90 (the previous current satellite was 3) and again at step 150 (the
previous current satellite was 5), although it is visible at every step from
61 through 150 — a second queue selection within one continuous visibility
interval, through the stale queue entry left over from 4's first visibility
interval. -/
theorem c10_counterexample :
    (c10Run 91).2 = some 4 ∧ (c10Run 90).2 = some 3 ∧
    (c10Run 151).2 = some 4 ∧ (c10Run 150).2 = some 5 ∧
    ((List.range 90).all fun i => decide (4 ∈ c10Vis (61 + i))) = true := by
  refine ⟨?_, ?_, ?_, ?_, ?_⟩ <;> decide

end Cote
